import Mathlib

/-!
Verification of the expense-tracker ML core (server/ml) against its
specification.  The Python code is shallowly embedded: money amounts and
model outputs are rationals (`ℚ`), calendar months are integers (`ℤ`),
the opaque regressor/scaler pairs are modelled as function parameters, and
each fallible external effect (artifact load, inference) is modelled by a
boolean flag saying whether that effect raises.
-/

/-- Semantics of `np.clip(x, lo, hi)`: numpy computes
`minimum(maximum(x, lo), hi)`, so when `lo > hi` the result is `hi`. -/
def npClip (x lo hi : ℚ) : ℚ := min (max x lo) hi

/-- Bounds-and-clip logic of `ExpensePredictor.predict`
(`expense_predictor.py` lines 71-96), transcribed let-by-let:
base range 80%-120% of expenses, festival-season upper 130% for months
10-12, new-year lower 90% for months 1-2 (elif, so mutually exclusive),
then income caps when `income > 0`, then `np.clip`. -/
def clampPredictionB (raw expenses : ℚ) (month : ℤ) (income : ℚ) : ℚ :=
  let min1 : ℚ := expenses * 0.8
  let max1 : ℚ := expenses * 1.2
  let max2 : ℚ := if 10 ≤ month ∧ month ≤ 12 then expenses * 1.3 else max1
  let min2 : ℚ :=
    if 10 ≤ month ∧ month ≤ 12 then min1
    else if 1 ≤ month ∧ month ≤ 2 then expenses * 0.9 else min1
  let max3 : ℚ := if 0 < income then min max2 (min (income * 0.3) (expenses * 1.5)) else max2
  let min3 : ℚ := if 0 < income then max min2 (max (income * 0.01) (expenses * 0.5)) else min2
  npClip raw min3 max3

/-- Bounds-and-clip logic of the happy path of
`PersonalizedExpensePredictor.predict` (`personalized_model.py` lines
316-334); the source duplicates the base predictor's code verbatim. -/
def clampPredictionP (raw expenses : ℚ) (month : ℤ) (income : ℚ) : ℚ :=
  let min1 : ℚ := expenses * 0.8
  let max1 : ℚ := expenses * 1.2
  let max2 : ℚ := if 10 ≤ month ∧ month ≤ 12 then expenses * 1.3 else max1
  let min2 : ℚ :=
    if 10 ≤ month ∧ month ≤ 12 then min1
    else if 1 ≤ month ∧ month ≤ 2 then expenses * 0.9 else min1
  let max3 : ℚ := if 0 < income then min max2 (min (income * 0.3) (expenses * 1.5)) else max2
  let min3 : ℚ := if 0 < income then max min2 (max (income * 0.01) (expenses * 0.5)) else min2
  npClip raw min3 max3

/-- Bounds-and-clip logic of the fallback path of
`PersonalizedExpensePredictor.predict` (`personalized_model.py` lines
355-370); again a verbatim duplicate in the source. -/
def clampPredictionF (raw expenses : ℚ) (month : ℤ) (income : ℚ) : ℚ :=
  let min1 : ℚ := expenses * 0.8
  let max1 : ℚ := expenses * 1.2
  let max2 : ℚ := if 10 ≤ month ∧ month ≤ 12 then expenses * 1.3 else max1
  let min2 : ℚ :=
    if 10 ≤ month ∧ month ≤ 12 then min1
    else if 1 ≤ month ∧ month ≤ 2 then expenses * 0.9 else min1
  let max3 : ℚ := if 0 < income then min max2 (min (income * 0.3) (expenses * 1.5)) else max2
  let min3 : ℚ := if 0 < income then max min2 (max (income * 0.01) (expenses * 0.5)) else min2
  npClip raw min3 max3

/-- The `(lowerBound, upperBound)` pair the source computes before the
final `np.clip`, exposed as a function of its own (same lets as
`clampPredictionB`). -/
def boundsOf (expenses : ℚ) (month : ℤ) (income : ℚ) : ℚ × ℚ :=
  let min1 : ℚ := expenses * 0.8
  let max1 : ℚ := expenses * 1.2
  let max2 : ℚ := if 10 ≤ month ∧ month ≤ 12 then expenses * 1.3 else max1
  let min2 : ℚ :=
    if 10 ≤ month ∧ month ≤ 12 then min1
    else if 1 ≤ month ∧ month ≤ 2 then expenses * 0.9 else min1
  let max3 : ℚ := if 0 < income then min max2 (min (income * 0.3) (expenses * 1.5)) else max2
  let min3 : ℚ := if 0 < income then max min2 (max (income * 0.01) (expenses * 0.5)) else min2
  (min3, max3)

/-- The bounds post-processor exactly as worded in the specification
(section 4.1): month sets written out element by element, the seasonal
adjustments mutually exclusive, income caps as ternary min/max, final
clamp.  Written from the spec so it can be compared with the
source-derived `clampPredictionB`. -/
def clampSpec (raw expenses : ℚ) (month : ℤ) (income : ℚ) : ℚ :=
  let lower : ℚ := expenses * 0.8
  let upper : ℚ := expenses * 1.2
  let lu : ℚ × ℚ :=
    if month = 10 ∨ month = 11 ∨ month = 12 then (lower, expenses * 1.3)
    else if month = 1 ∨ month = 2 then (expenses * 0.9, upper)
    else (lower, upper)
  let lu2 : ℚ × ℚ :=
    if 0 < income then
      (max lu.1 (max (income * 0.01) (expenses * 0.5)),
       min lu.2 (min (income * 0.3) (expenses * 1.5)))
    else lu
  min (max raw lu2.1) lu2.2

namespace ExpensePredictor

/-- Failure modes of `ExpensePredictor.predict`: the two `ValueError`s of
its input validation (`expense_predictor.py` lines 38-47).  Any raised
error reaches the outer handler and terminates the process
(`sys.exit(1)`), so the whole call is modelled as `Except`. -/
inductive PredictError where
  | invalidIncome
  | invalidMonth
deriving DecidableEq

/-- Embedding of `ExpensePredictor.predict` (`expense_predictor.py` lines 30-99).
`braw` is the opaque composite `model.predict ∘ scaler.transform` applied
to the (possibly substituted) input row.  Validation: `income ≤ 0` raises;
`expenses ≤ 0` is substituted with `max(income*0.1, 1000)` before the
input row is built; `month` outside `[1,12]` raises. -/
def predict (braw : ℚ → ℚ → ℤ → ℚ → ℚ) (income expenses : ℚ) (month : ℤ)
    (savings : ℚ) : Except PredictError ℚ :=
  if income ≤ 0 then .error .invalidIncome
  else
    let expenses := if expenses ≤ 0 then max (income * 0.1) 1000 else expenses
    if month < 1 ∨ 12 < month then .error .invalidMonth
    else .ok (clampPredictionB (braw income expenses month savings) expenses month income)

end ExpensePredictor

namespace PersonalizedExpensePredictor

/-- Transaction type tag (the `type` column of the stored CSV). -/
inductive TType where
  | income
  | expense
deriving DecidableEq

/-- One stored transaction record (columns `amount`, `type`, `date`,
`currency`, optional `_id`).  `pd.to_datetime` plus `dt.month` /
`strftime('%Y-%m')` only ever expose the (year, month) of the date, so the
date is embedded as that pair.  `ttype` stands for the source's `type`
column (a reserved word in Lean). -/
structure Tx where
  amount : ℚ
  ttype : TType
  year : ℕ
  month : ℕ
  currency : String
  id : Option ℕ
deriving DecidableEq

/-- One training example: `X = [income, expense, month, savings]`,
`y =` next month's expense (`personalized_model.py` lines 192-199). -/
structure TrainPair where
  income : ℚ
  expense : ℚ
  month : ℕ
  savings : ℚ
  target : ℚ
deriving DecidableEq

/-- One row of the monthly pivot: the `year_month` key plus the summed
income, summed expense and derived savings. -/
structure MonthRow where
  key : ℕ × ℕ
  income : ℚ
  expense : ℚ
  savings : ℚ
deriving DecidableEq

/-- Chronological order on `year_month` keys; sorting by the
`'%Y-%m'` string is lexicographic on (year, month) for 4-digit years. -/
def keyLe (a b : ℕ × ℕ) : Prop := a.1 < b.1 ∨ (a.1 = b.1 ∧ a.2 ≤ b.2)

instance : DecidableRel keyLe := fun a b =>
  inferInstanceAs (Decidable (a.1 < b.1 ∨ (a.1 = b.1 ∧ a.2 ≤ b.2)))

instance : IsTotal (ℕ × ℕ) keyLe :=
  ⟨by intro a b; unfold keyLe; omega⟩

instance : IsTrans (ℕ × ℕ) keyLe :=
  ⟨by intro a b c; unfold keyLe; omega⟩

/-- The distinct `year_month` keys of the log, chronologically sorted
(the pivot index, after `sort_values('year_month')`). -/
def trainKeys (log : List Tx) : List (ℕ × ℕ) :=
  List.insertionSort keyLe ((log.map fun t => (t.year, t.month)).dedup)

/-- Sum of the amounts of the log's transactions of one type inside one
`year_month` key (the `groupby(...).agg(sum)` cell, or the pivot's
`fill_value=0` when no such transaction exists). -/
def sumAmount (log : List Tx) (k : ℕ × ℕ) (tt : TType) : ℚ :=
  ((log.filter fun t => t.year == k.1 && t.month == k.2 && t.ttype == tt).map Tx.amount).sum

/-- The pivot row of one month key, with `savings = income - expense`
(`personalized_model.py` line 175). -/
def monthRowAt (log : List Tx) (k : ℕ × ℕ) : MonthRow :=
  let inc := sumAmount log k TType.income
  let exp := sumAmount log k TType.expense
  ⟨k, inc, exp, inc - exp⟩

/-- The chronologically sorted monthly pivot. -/
def monthlyRows (log : List Tx) : List MonthRow :=
  (trainKeys log).map (monthRowAt log)

/-- Features from the earlier month, target from the later month
(`personalized_model.py` lines 188-199; the feature month is the calendar
month, the second component of the key). -/
def mkTrainPair (cur nxt : MonthRow) : TrainPair :=
  ⟨cur.income, cur.expense, cur.key.2, cur.savings, nxt.expense⟩

/-- Consecutive-pair emission written as a clean recursion; compared
against the source's index loop (modelled with `zip`). -/
def consecPairs : List MonthRow → List TrainPair
  | cur :: nxt :: rest => mkTrainPair cur nxt :: consecPairs (nxt :: rest)
  | _ => []

/-- Failure modes of `prepare_training_data` (both reported by returning
`(None, None)` to the caller, distinguished by their stderr message). -/
inductive PrepError where
  | insufficientDataTypes
  | insufficientSequentialData
deriving DecidableEq

/-- Embedding of `PersonalizedExpensePredictor.prepare_training_data`
(`personalized_model.py` lines 142-209).  The `'income' not in columns or
'expense' not in columns` check (line 171) is a whole-log check: a pivot
column exists iff some transaction anywhere in the log has that type,
and month keys missing one type get `fill_value=0`.  The index loop over
`range(len(monthly_pivot) - 1)` is modelled by zipping the row list with
its tail. -/
def trainingPairs (log : List Tx) : List TrainPair :=
  ((monthlyRows log).zip (monthlyRows log).tail).map fun p => mkTrainPair p.1 p.2

def prepare_training_data (log : List Tx) : Except PrepError (List TrainPair) :=
  if (log.any fun t => t.ttype == TType.income) && (log.any fun t => t.ttype == TType.expense) then
    if (trainingPairs log).isEmpty then .error .insufficientSequentialData
    else .ok (trainingPairs log)
  else .error .insufficientDataTypes

/-- Whether the log contains at least one transaction of each type
(equivalently: the pivot has both an `income` and an `expense` column). -/
def hasBothTypes (log : List Tx) : Prop :=
  (∃ t ∈ log, t.ttype = TType.income) ∧ (∃ t ∈ log, t.ttype = TType.expense)

instance (log : List Tx) : Decidable (hasBothTypes log) :=
  inferInstanceAs (Decidable (_ ∧ _))

/-- The user-model metadata fields the core logic reads and writes
(`_load_metadata`, `personalized_model.py` lines 42-53; timestamps and
performance metrics are carried along by the source but never branch the
modelled logic). -/
structure Metadata where
  trainingCount : ℕ
  transactionCount : ℕ
  baseWeight : ℚ
  personalWeight : ℚ
deriving DecidableEq

/-- The defaults written on first reference to a user: 100% base model. -/
def defaultMetadata : Metadata := ⟨0, 0, 1, 0⟩

/-- The blend-weight table of `train_model`
(`personalized_model.py` lines 251-261): strict thresholds on the
transaction count; at 20 or below the prior weights are kept. -/
def computeWeights (transactionCount : ℕ) (prior : ℚ × ℚ) : ℚ × ℚ :=
  if 100 < transactionCount then (0.3, 0.7)
  else if 50 < transactionCount then (0.5, 0.5)
  else if 20 < transactionCount then (0.7, 0.3)
  else prior

/-- The per-user persisted artifacts: regressor and scaler are opaque
type parameters (the core never inspects them), plus the transaction log
and metadata. -/
structure UserState (R S : Type) where
  regressor : R
  scaler : S
  log : List Tx
  metadata : Metadata

/-- Embedding of `_initialize_from_base_model` (`personalized_model.py` lines 65-86)
composed with `_load_metadata` defaults: both base artifacts are copied
into the fresh user state, with default metadata and empty log. -/
def initialize_from_base_model {R S : Type} (baseReg : R) (baseScaler : S) : UserState R S :=
  ⟨baseReg, baseScaler, [], defaultMetadata⟩

/-- Keep-first deduplication over the `_id` column (`drop_duplicates`,
default `keep='first'`; pandas also treats missing ids as equal). -/
def dropDupById : List (Option ℕ) → List Tx → List Tx
  | _, [] => []
  | seen, t :: ts =>
      if t.id ∈ seen then dropDupById seen ts else t :: dropDupById (t.id :: seen) ts

/-- Embedding of `add_transaction_data` (`personalized_model.py` lines 88-111): append
the new records, deduplicate by `_id` when that column is present, then
recompute `transaction_count` as the stored row count. -/
def add_transaction_data {R S : Type} (s : UserState R S) (txs : List Tx) : UserState R S :=
  let combined := s.log ++ txs
  let newLog := if combined.any fun t => t.id.isSome then dropDupById [] combined else combined
  { s with log := newLog,
           metadata := { s.metadata with transactionCount := newLog.length } }

/-- Embedding of `train_model` (`personalized_model.py` lines 211-279).  `fit` is the
opaque scale-and-fit step (`scaler.transform` on the features followed by
`model.fit`): it reads the stored scaler, the training pairs and the
current regressor and produces the updated regressor.  On success the
metadata's training count is bumped and the blend weights recomputed from
the transaction count; on any failure the state is returned untouched
with `False`. -/
def train_model {R S : Type} (fit : S → List TrainPair → R → R) (s : UserState R S) :
    UserState R S × Bool :=
  match prepare_training_data s.log with
  | .error _ => (s, false)
  | .ok pairs =>
    if pairs.length < 3 then (s, false)
    else
      let w := computeWeights s.metadata.transactionCount
                 (s.metadata.baseWeight, s.metadata.personalWeight)
      ({ s with
          regressor := fit s.scaler pairs s.regressor,
          metadata := { s.metadata with
                          trainingCount := s.metadata.trainingCount + 1,
                          baseWeight := w.1,
                          personalWeight := w.2 } }, true)

/-- The mutating operations a user state can undergo after bootstrap. -/
inductive UserOp (R S : Type) where
  | addTx (txs : List Tx)
  | train (fit : S → List TrainPair → R → R)

/-- Apply one operation to the persisted user state. -/
def applyOp {R S : Type} (s : UserState R S) : UserOp R S → UserState R S
  | .addTx txs => add_transaction_data s txs
  | .train fit => (train_model fit s).1

/-- The effect environment of one `predict` call: whether loading and
running the user artifacts raises (`userLoadOk`), whether the base
artifact files exist (`baseExists`), whether loading and running them
raises (`baseLoadOk`), the two opaque composite raw-prediction functions
(scaler transform followed by regressor inference on the input row), and
the user's metadata. -/
structure World where
  userLoadOk : Bool
  baseExists : Bool
  baseLoadOk : Bool
  userRaw : ℚ → ℚ → ℤ → ℚ → ℚ
  baseRaw : ℚ → ℚ → ℤ → ℚ → ℚ
  metadata : Metadata

/-- The `except` handler of `PersonalizedExpensePredictor.predict`
(`personalized_model.py` lines 338-374): if the base artifacts exist,
load and run them and clamp (any raise there returns the heuristic
`expenses * 1.05`); if they do not exist, control falls off the end of
the handler and Python returns `None` — modelled as `none`. -/
def fallback (w : World) (income expenses : ℚ) (month : ℤ) (savings : ℚ) : Option ℚ :=
  if w.baseExists then
    if w.baseLoadOk then
      some (clampPredictionF (w.baseRaw income expenses month savings) expenses month income)
    else some (expenses * 1.05)
  else none

/-- Embedding of `PersonalizedExpensePredictor.predict` (`personalized_model.py` lines
281-374).  Happy path: load user artifacts, raw personal prediction,
blend with the base prediction when `base_model_weight > 0` and the base
artifacts exist and load, then clamp; no input validation whatsoever.
Any raise in the happy path drops into `fallback`. -/
def predict (w : World) (income expenses : ℚ) (month : ℤ) (savings : ℚ) : Option ℚ :=
  if w.userLoadOk then
    if 0 < w.metadata.baseWeight then
      if w.baseExists then
        if w.baseLoadOk then
          some (clampPredictionP
            (w.baseRaw income expenses month savings * w.metadata.baseWeight
              + w.userRaw income expenses month savings * w.metadata.personalWeight)
            expenses month income)
        else fallback w income expenses month savings
      else some (clampPredictionP (w.userRaw income expenses month savings) expenses month income)
    else some (clampPredictionP (w.userRaw income expenses month savings) expenses month income)
  else fallback w income expenses month savings

/-- Example log: Jan 2024 with income 1000 and expense 800, Feb 2024 with
income 1100 and expense 750 (spec section 8's aggregator example). -/
def janFebLog : List Tx :=
  [⟨1000, .income, 2024, 1, "INR", none⟩, ⟨800, .expense, 2024, 1, "INR", none⟩,
   ⟨1100, .income, 2024, 2, "INR", none⟩, ⟨750, .expense, 2024, 2, "INR", none⟩]

/-- Example log with a single month key carrying both types. -/
def janOnlyLog : List Tx :=
  [⟨1000, .income, 2024, 1, "INR", none⟩, ⟨800, .expense, 2024, 1, "INR", none⟩]

/-- Example log where January has only income and February only expense. -/
def splitTypesLog : List Tx :=
  [⟨1000, .income, 2024, 1, "INR", none⟩, ⟨750, .expense, 2024, 2, "INR", none⟩]

/-- Example log containing income transactions only. -/
def incomeOnlyLog : List Tx := [⟨1000, .income, 2024, 1, "INR", none⟩]

/-- Example log with both types in each of the months 1-4 of 2024. -/
def fourMonthLog : List Tx :=
  [⟨1000, .income, 2024, 1, "INR", none⟩, ⟨800, .expense, 2024, 1, "INR", none⟩,
   ⟨1000, .income, 2024, 2, "INR", none⟩, ⟨800, .expense, 2024, 2, "INR", none⟩,
   ⟨1000, .income, 2024, 3, "INR", none⟩, ⟨800, .expense, 2024, 3, "INR", none⟩,
   ⟨1000, .income, 2024, 4, "INR", none⟩, ⟨800, .expense, 2024, 4, "INR", none⟩]

/-- A trivial opaque fit step for examples. -/
def constFit : ℕ → List TrainPair → ℕ → ℕ := fun _ _ r => r

/-- A concrete trainable user state: four months of data, 25 recorded
transactions, default blend weights. -/
def sampleTrainState : UserState ℕ ℕ := ⟨0, 0, fourMonthLog, ⟨0, 25, 1, 0⟩⟩

/-- Effect environment of a freshly bootstrapped user: every artifact
loads, metadata is the default (weights 1.0/0.0), both raw models output
6000. -/
def freshUserWorld : World :=
  ⟨true, true, true, fun _ _ _ _ => 6000, fun _ _ _ _ => 6000, defaultMetadata⟩

/-- Effect environment where the user's artifacts are corrupted (their
load raises) while the base artifacts exist and load; the base raw model
outputs 6000. -/
def brokenUserWorld : World :=
  ⟨false, true, true, fun _ _ _ _ => 0, fun _ _ _ _ => 6000, defaultMetadata⟩

/-- Effect environment where the user's artifacts fail to load and the
base artifact files are absent. -/
def noArtifactsWorld : World :=
  ⟨false, false, true, fun _ _ _ _ => 0, fun _ _ _ _ => 0, defaultMetadata⟩

end PersonalizedExpensePredictor

theorem clampB_eq_npClip_boundsOf (raw expenses : ℚ) (month : ℤ) (income : ℚ) :
    clampPredictionB raw expenses month income
      = npClip raw (boundsOf expenses month income).1 (boundsOf expenses month income).2 := rfl

theorem clampP_eq_clampB (raw expenses : ℚ) (month : ℤ) (income : ℚ) :
    clampPredictionP raw expenses month income = clampPredictionB raw expenses month income := rfl

theorem clampF_eq_clampB (raw expenses : ℚ) (month : ℤ) (income : ℚ) :
    clampPredictionF raw expenses month income = clampPredictionB raw expenses month income := rfl

theorem npClip_mem (x lo hi : ℚ) :
    min lo hi ≤ npClip x lo hi ∧ npClip x lo hi ≤ max lo hi := by
  constructor
  · exact min_le_min (le_max_right x lo) (le_refl hi)
  · exact le_trans (min_le_right _ _) (le_max_right lo hi)

theorem npClip_of_inverted (x lo hi : ℚ) (h : hi < lo) : npClip x lo hi = hi :=
  min_eq_right (le_of_lt (lt_of_lt_of_le h (le_max_right x lo)))

section Helpers

open PersonalizedExpensePredictor

theorem bothTypes_bool (log : List Tx) :
    ((log.any fun t => t.ttype == TType.income)
        && (log.any fun t => t.ttype == TType.expense)) = true
      ↔ hasBothTypes log := by
  simp [hasBothTypes, List.any_eq_true, beq_iff_eq]

theorem zipTail_eq_consecPairs :
    ∀ rows : List MonthRow,
      ((rows.zip rows.tail).map fun p => mkTrainPair p.1 p.2) = consecPairs rows
  | [] => rfl
  | [_] => rfl
  | a :: b :: rest => by
      have ih := zipTail_eq_consecPairs (b :: rest)
      simp only [List.tail_cons, List.zip_cons_cons, List.map_cons, consecPairs] at ih ⊢
      rw [ih]

theorem consecPairs_length :
    ∀ rows : List MonthRow, (consecPairs rows).length = rows.length - 1
  | [] => rfl
  | [_] => rfl
  | a :: b :: rest => by
      have ih := consecPairs_length (b :: rest)
      simp only [consecPairs, List.length_cons] at ih ⊢
      omega

theorem trainingPairs_eq_consecPairs (log : List Tx) :
    trainingPairs log = consecPairs (monthlyRows log) :=
  zipTail_eq_consecPairs (monthlyRows log)

theorem trainingPairs_length (log : List Tx) :
    (trainingPairs log).length = (trainKeys log).length - 1 := by
  rw [trainingPairs_eq_consecPairs, consecPairs_length, monthlyRows, List.length_map]

theorem train_model_scaler {R S : Type} (fit : S → List TrainPair → R → R)
    (s : UserState R S) : (train_model fit s).1.scaler = s.scaler := by
  unfold train_model
  split
  · rfl
  · split <;> rfl

theorem train_model_log {R S : Type} (fit : S → List TrainPair → R → R)
    (s : UserState R S) : (train_model fit s).1.log = s.log := by
  unfold train_model
  split
  · rfl
  · split <;> rfl

theorem applyOp_scaler {R S : Type} (s : UserState R S) (op : UserOp R S) :
    (applyOp s op).scaler = s.scaler := by
  cases op with
  | addTx txs => rfl
  | train fit => exact train_model_scaler fit s

theorem foldl_applyOp_scaler {R S : Type} :
    ∀ (ops : List (UserOp R S)) (s : UserState R S),
      (ops.foldl applyOp s).scaler = s.scaler
  | [], _ => rfl
  | op :: ops, s => by
      rw [List.foldl_cons, foldl_applyOp_scaler ops (applyOp s op), applyOp_scaler]

end Helpers

section Evaluations

open PersonalizedExpensePredictor

theorem income_beq_income : (TType.income == TType.income) = true := rfl

theorem income_beq_expense : (TType.income == TType.expense) = false := rfl

theorem expense_beq_income : (TType.expense == TType.income) = false := rfl

theorem expense_beq_expense : (TType.expense == TType.expense) = true := rfl

theorem prepare_janFebLog_eval :
    prepare_training_data janFebLog = .ok [⟨1000, 800, 1, 200, 750⟩] := by
  norm_num [prepare_training_data, trainingPairs, monthlyRows, trainKeys, janFebLog,
    monthRowAt, sumAmount, mkTrainPair, keyLe, List.dedup_cons_of_mem,
    List.dedup_cons_of_not_mem, List.insertionSort, List.orderedInsert,
    List.filter_cons, List.filter_nil, List.sum_cons, List.sum_nil,
    income_beq_income, income_beq_expense, expense_beq_income, expense_beq_expense]

theorem prepare_splitTypesLog_eval :
    prepare_training_data splitTypesLog = .ok [⟨1000, 0, 1, 1000, 750⟩] := by
  norm_num [prepare_training_data, trainingPairs, monthlyRows, trainKeys, splitTypesLog,
    monthRowAt, sumAmount, mkTrainPair, keyLe, List.dedup_cons_of_mem,
    List.dedup_cons_of_not_mem, List.insertionSort, List.orderedInsert,
    List.filter_cons, List.filter_nil, List.sum_cons, List.sum_nil,
    income_beq_income, income_beq_expense, expense_beq_income, expense_beq_expense]

theorem prepare_janOnlyLog_eval :
    prepare_training_data janOnlyLog = .error .insufficientSequentialData := by
  norm_num [prepare_training_data, trainingPairs, monthlyRows, trainKeys, janOnlyLog,
    monthRowAt, sumAmount, mkTrainPair, keyLe, List.dedup_cons_of_mem,
    List.dedup_cons_of_not_mem, List.insertionSort, List.orderedInsert,
    List.filter_cons, List.filter_nil, List.sum_cons, List.sum_nil,
    income_beq_income, income_beq_expense, expense_beq_income, expense_beq_expense]

theorem prepare_incomeOnlyLog_eval :
    prepare_training_data incomeOnlyLog = .error .insufficientDataTypes := by
  norm_num [prepare_training_data, incomeOnlyLog, income_beq_income, income_beq_expense]

end Evaluations

section MoreEvaluations

open PersonalizedExpensePredictor

theorem predict_fresh_sub0_eval :
    predict freshUserWorld 50000 0 11 10000 = some 0 := by
  norm_num [predict, fallback, freshUserWorld, defaultMetadata, clampPredictionP,
    npClip, min_def, max_def]

theorem predict_fresh_negIncome_eval :
    (predict freshUserWorld (-5) 3000 7 0).isSome = true := by
  norm_num [predict, fallback, freshUserWorld, defaultMetadata, clampPredictionP,
    npClip, min_def, max_def]

theorem predict_fresh_month13_eval :
    (predict freshUserWorld 50000 3000 13 0).isSome = true := by
  norm_num [predict, fallback, freshUserWorld, defaultMetadata, clampPredictionP,
    npClip, min_def, max_def]

theorem predict_noArtifacts_eval :
    predict noArtifactsWorld 50000 1000 5 0 = none := by
  norm_num [predict, fallback, noArtifactsWorld]

theorem predict_broken_sub0_eval :
    predict brokenUserWorld 50000 0 11 10000 = some 0 := by
  norm_num [predict, fallback, brokenUserWorld, clampPredictionF,
    npClip, min_def, max_def]

theorem base_predict_broken_sub0_eval :
    ExpensePredictor.predict brokenUserWorld.baseRaw 50000 0 11 10000 = .ok 6000 := by
  norm_num [ExpensePredictor.predict, brokenUserWorld, clampPredictionB,
    npClip, min_def, max_def]

theorem boundsOf_5000_11_50000_eval : boundsOf 5000 11 50000 = (4000, 6500) := by
  norm_num [boundsOf, min_def, max_def]

theorem boundsOf_0_5_50000_eval : boundsOf 0 5 50000 = (500, 0) := by
  norm_num [boundsOf, min_def, max_def]

theorem train_model_sample_succeeds :
    train_model constFit sampleTrainState
      = ((train_model constFit sampleTrainState).1, true) := by
  norm_num [train_model, sampleTrainState, constFit, computeWeights,
    prepare_training_data, trainingPairs, monthlyRows, trainKeys, fourMonthLog,
    monthRowAt, sumAmount, mkTrainPair, keyLe, List.dedup_cons_of_mem,
    List.dedup_cons_of_not_mem, List.insertionSort, List.orderedInsert,
    List.filter_cons, List.filter_nil, List.sum_cons, List.sum_nil,
    income_beq_income, income_beq_expense, expense_beq_income, expense_beq_expense]

end MoreEvaluations

section Claims

open PersonalizedExpensePredictor

/-- C1: evidence for the code bug.  The first conjunct characterizes when
`predict` returns a value at all: it does exactly when the user artifacts
load or the base artifact files exist.  The second conjunct shows the
failing case concretely: when the personalized path fails and the base
artifacts are absent, the `except` handler falls through and the call
returns Python `None` — not the heuristic float `expenses * 1.05` the
claim requires. -/
theorem predict_value_presence :
    (∀ (w : World) (income expenses : ℚ) (month : ℤ) (savings : ℚ),
      (predict w income expenses month savings).isSome = (w.userLoadOk || w.baseExists)) ∧
    predict noArtifactsWorld 50000 1000 5 0 = none := by
  refine ⟨?_, predict_noArtifacts_eval⟩
  intro w income expenses month savings
  cases hu : w.userLoadOk <;> cases hb : w.baseExists <;> cases hl : w.baseLoadOk <;>
    by_cases hw : 0 < w.metadata.baseWeight <;>
      simp [predict, fallback, hu, hb, hl, hw]

/-- C2 counterexample: on a freshly bootstrapped user whose artifacts all
load, `predict(50000, 0, 11, 10000)` returns 0 — the bounds are computed
from the unsubstituted expenses 0, so the result sits strictly below the
lower bound 4000 that the claimed substitution to 5000 would give — and
inputs with income ≤ 0 or month outside [1,12] are answered rather than
rejected. -/
theorem personalized_predict_skips_validation :
    predict freshUserWorld 50000 0 11 10000 = some 0 ∧
    ¬ (boundsOf 5000 11 50000).1 ≤ (0:ℚ) ∧
    (predict freshUserWorld (-5) 3000 7 0).isSome = true ∧
    (predict freshUserWorld 50000 3000 13 0).isSome = true := by
  refine ⟨predict_fresh_sub0_eval, ?_, predict_fresh_negIncome_eval,
    predict_fresh_month13_eval⟩
  rw [boundsOf_5000_11_50000_eval]
  norm_num

/-- C2 amended: the described validation (income ≤ 0 rejected,
expenses ≤ 0 substituted with max(income*0.1, 1000) for both inference
input and bounds, month outside [1,12] rejected) is performed by the base
predictor `ExpensePredictor.predict` only; the personalized predict
performs no validation — at (50000, 0, 11, 10000) on a fresh user it
computes bounds from the raw expenses 0 and returns 0, and it accepts
income ≤ 0 and out-of-range months. -/
theorem validation_only_in_base_predictor :
    (∀ (braw : ℚ → ℚ → ℤ → ℚ → ℚ) (income expenses : ℚ) (month : ℤ) (savings : ℚ),
      income ≤ 0 →
      ExpensePredictor.predict braw income expenses month savings
        = Except.error ExpensePredictor.PredictError.invalidIncome) ∧
    (∀ (braw : ℚ → ℚ → ℤ → ℚ → ℚ) (income expenses : ℚ) (month : ℤ) (savings : ℚ),
      0 < income → (month < 1 ∨ 12 < month) →
      ExpensePredictor.predict braw income expenses month savings
        = Except.error ExpensePredictor.PredictError.invalidMonth) ∧
    (∀ (braw : ℚ → ℚ → ℤ → ℚ → ℚ) (income expenses : ℚ) (month : ℤ) (savings : ℚ),
      0 < income → expenses ≤ 0 → 1 ≤ month → month ≤ 12 →
      ExpensePredictor.predict braw income expenses month savings
        = Except.ok (clampPredictionB (braw income (max (income * 0.1) 1000) month savings)
            (max (income * 0.1) 1000) month income)) ∧
    predict freshUserWorld 50000 0 11 10000 = some 0 ∧
    (predict freshUserWorld (-5) 3000 7 0).isSome = true := by
  refine ⟨?_, ?_, ?_, predict_fresh_sub0_eval, predict_fresh_negIncome_eval⟩
  · intro braw income expenses month savings h
    simp [ExpensePredictor.predict, h]
  · intro braw income expenses month savings hi hm
    simp [ExpensePredictor.predict, not_le.mpr hi, hm]
  · intro braw income expenses month savings hi he h1 h2
    have hm : ¬ (month < 1 ∨ 12 < month) := by omega
    simp [ExpensePredictor.predict, not_le.mpr hi, he, hm]

/-- C2 witness: the amended theorem applied at concrete inputs. -/
theorem validation_only_in_base_predictor_witness :
    ExpensePredictor.predict (fun _ _ _ _ => (6000:ℚ)) (-3) 1000 5 0
      = Except.error ExpensePredictor.PredictError.invalidIncome ∧
    ExpensePredictor.predict (fun _ _ _ _ => (6000:ℚ)) 50000 1000 13 0
      = Except.error ExpensePredictor.PredictError.invalidMonth ∧
    ExpensePredictor.predict (fun _ _ _ _ => (6000:ℚ)) 50000 0 11 10000
      = Except.ok (clampPredictionB 6000 (max ((50000:ℚ) * 0.1) 1000) 11 50000) :=
  ⟨validation_only_in_base_predictor.1 _ (-3) 1000 5 0 (by norm_num),
   validation_only_in_base_predictor.2.1 _ 50000 1000 13 0 (by norm_num) (by omega),
   validation_only_in_base_predictor.2.2.1 _ 50000 0 11 10000 (by norm_num) (by norm_num)
     (by omega) (by omega)⟩

/-- C3 counterexample: a log whose January carries only income and whose
February carries only expense is accepted — the pivot fills the missing
totals with 0 and emits the pair (1000, 0, 1, 1000) with target 750 —
rather than failing with InsufficientDataTypes as the claim requires. -/
theorem month_missing_type_included_not_rejected :
    prepare_training_data splitTypesLog = .ok [⟨1000, 0, 1, 1000, 750⟩] ∧
    prepare_training_data splitTypesLog ≠ .error .insufficientDataTypes := by
  refine ⟨prepare_splitTypesLog_eval, ?_⟩
  rw [prepare_splitTypesLog_eval]
  simp

/-- C3 amended: the data-types check is global, not per month-key —
construction fails with InsufficientDataTypes exactly when the whole log
lacks income transactions or lacks expense transactions; otherwise every
month-key is included, a missing type's total filled as 0. -/
theorem datatypes_failure_iff_global_lack (log : List Tx) :
    prepare_training_data log = .error .insufficientDataTypes ↔ ¬ hasBothTypes log := by
  unfold prepare_training_data
  by_cases h : hasBothTypes log
  · rw [if_pos ((bothTypes_bool log).mpr h)]
    constructor
    · intro hc
      split at hc <;> simp_all
    · intro hn
      exact absurd h hn
  · rw [if_neg fun hb => h ((bothTypes_bool log).mp hb)]
    simp [h]

/-- C3 witness: the amended theorem applied to an income-only log. -/
theorem datatypes_failure_iff_global_lack_witness :
    prepare_training_data incomeOnlyLog = .error .insufficientDataTypes :=
  (datatypes_failure_iff_global_lack incomeOnlyLog).mpr (by decide)

end Claims

section ClaimsB

open PersonalizedExpensePredictor

/-- C4: the bounds post-processor is the deterministic function the spec
describes — base range 80%-120% of expenses, festival upper 130% for
months {10,11,12} else new-year lower 90% for months {1,2} (mutually
exclusive, months 3-9 unadjusted), income caps applied only when
income > 0, then clamp — and the identical function is applied by the
base predictor, the personalized blended path and the personalized
fallback path. -/
theorem bounds_postprocessor_spec_and_shared (raw expenses : ℚ) (month : ℤ) (income : ℚ) :
    clampPredictionB raw expenses month income = clampSpec raw expenses month income ∧
    clampPredictionP raw expenses month income = clampPredictionB raw expenses month income ∧
    clampPredictionF raw expenses month income = clampPredictionB raw expenses month income := by
  refine ⟨?_, rfl, rfl⟩
  simp only [clampPredictionB, clampSpec, npClip]
  split_ifs <;> first | rfl | omega

/-- C5: for every raw prediction and expenses > 0, the clamped output of
the bounds post-processor (base and personalized copies alike) lies
within the interval between the computed lower and upper bounds,
whichever way they are ordered. -/
theorem clamp_in_computed_interval (raw expenses : ℚ) (month : ℤ) (income : ℚ)
    (he : 0 < expenses) :
    (min (boundsOf expenses month income).1 (boundsOf expenses month income).2
        ≤ clampPredictionB raw expenses month income ∧
      clampPredictionB raw expenses month income
        ≤ max (boundsOf expenses month income).1 (boundsOf expenses month income).2) ∧
    (min (boundsOf expenses month income).1 (boundsOf expenses month income).2
        ≤ clampPredictionP raw expenses month income ∧
      clampPredictionP raw expenses month income
        ≤ max (boundsOf expenses month income).1 (boundsOf expenses month income).2) := by
  have h := npClip_mem raw (boundsOf expenses month income).1
    (boundsOf expenses month income).2
  exact ⟨h, h⟩

/-- C5 witness: the theorem applied at raw 6000, expenses 1000, month 5,
income 0. -/
theorem clamp_in_computed_interval_witness :
    (0:ℚ) < 1000 ∧
    (min (boundsOf 1000 5 0).1 (boundsOf 1000 5 0).2 ≤ clampPredictionB 6000 1000 5 0 ∧
      clampPredictionB 6000 1000 5 0
        ≤ max (boundsOf 1000 5 0).1 (boundsOf 1000 5 0).2) :=
  ⟨by norm_num, (clamp_in_computed_interval 6000 1000 5 0 (by norm_num)).1⟩

/-- C10: when the computed bounds invert (upper < lower), the np.clip
stage returns exactly the computed upper bound for every raw prediction,
in all three code paths. -/
theorem inverted_bounds_clip_to_upper (raw expenses : ℚ) (month : ℤ) (income : ℚ)
    (h : (boundsOf expenses month income).2 < (boundsOf expenses month income).1) :
    clampPredictionB raw expenses month income = (boundsOf expenses month income).2 ∧
    clampPredictionP raw expenses month income = (boundsOf expenses month income).2 ∧
    clampPredictionF raw expenses month income = (boundsOf expenses month income).2 := by
  have hc := npClip_of_inverted raw (boundsOf expenses month income).1
    (boundsOf expenses month income).2 h
  exact ⟨hc, hc, hc⟩

/-- C10 witness: at expenses 0, month 5, income 50000 the bounds invert
to (500, 0) and the clip collapses to the upper bound 0. -/
theorem inverted_bounds_clip_to_upper_witness :
    (boundsOf 0 5 50000).2 < (boundsOf 0 5 50000).1 ∧
    clampPredictionB 6000 0 5 50000 = (boundsOf 0 5 50000).2 := by
  have hlt : (boundsOf 0 5 50000).2 < (boundsOf 0 5 50000).1 := by
    rw [boundsOf_0_5_50000_eval]
    norm_num
  exact ⟨hlt, (inverted_bounds_clip_to_upper 6000 0 5 50000 hlt).1⟩

/-- C6: training keys are chronologically sorted; a successful
construction emits exactly the consecutive-pair list over the monthly
rows, one pair per consecutive key pair; with fewer than two month-keys
(both types present) it fails with InsufficientSequentialData; and the
Jan/Feb example yields exactly features (1000, 800, 1, 200) with target
750. -/
theorem training_pairs_sorted_consecutive :
    (∀ log : List Tx, List.Sorted keyLe (trainKeys log)) ∧
    (∀ (log : List Tx) (pairs : List TrainPair),
      prepare_training_data log = .ok pairs →
        pairs = consecPairs (monthlyRows log) ∧
        pairs.length + 1 = (trainKeys log).length) ∧
    (∀ log : List Tx, hasBothTypes log → (trainKeys log).length < 2 →
      prepare_training_data log = .error .insufficientSequentialData) ∧
    prepare_training_data janFebLog = .ok [⟨1000, 800, 1, 200, 750⟩] := by
  refine ⟨?_, ?_, ?_, prepare_janFebLog_eval⟩
  · intro log
    exact List.sorted_insertionSort keyLe _
  · intro log pairs h
    unfold prepare_training_data at h
    split at h
    · split at h
      · simp at h
      · rename_i hne
        have hp : trainingPairs log = pairs := Except.ok.inj h
        have hlen := trainingPairs_length log
        have hnil : trainingPairs log ≠ [] := by
          intro hnil
          rw [hnil] at hne
          simp at hne
        have hpos : 0 < (trainingPairs log).length := List.length_pos.mpr hnil
        constructor
        · rw [← hp, trainingPairs_eq_consecPairs]
        · rw [← hp]
          omega
    · simp at h
  · intro log hb hk
    unfold prepare_training_data
    rw [if_pos ((bothTypes_bool log).mpr hb)]
    have h0 : trainingPairs log = [] := by
      have := trainingPairs_length log
      exact List.length_eq_zero.mp (by omega)
    rw [h0]
    simp

/-- C6 witness: the theorem's error case applied to a one-month log, and
its success case applied to the Jan/Feb log. -/
theorem training_pairs_sorted_consecutive_witness :
    prepare_training_data janOnlyLog = .error .insufficientSequentialData ∧
    ([(⟨1000, 800, 1, 200, 750⟩ : TrainPair)] = consecPairs (monthlyRows janFebLog) ∧
      [(⟨1000, 800, 1, 200, 750⟩ : TrainPair)].length + 1 = (trainKeys janFebLog).length) :=
  ⟨training_pairs_sorted_consecutive.2.2.1 janOnlyLog (by decide) (by decide),
   training_pairs_sorted_consecutive.2.1 janFebLog _ prepare_janFebLog_eval⟩

end ClaimsB

section ClaimsC

open PersonalizedExpensePredictor

/-- C7: after a successful training run the persisted blend weights equal
`computeWeights` of the stored transaction count and prior weights; the
weight table holds with exact thresholds (>100, 51-100, 21-50, and
unchanged at ≤ 20); the personal weight is monotone in data volume from
the default prior; and the four concrete values of the spec hold. -/
theorem weights_recomputed_by_thresholds :
    (∀ (R S : Type) (fit : S → List TrainPair → R → R) (s s' : UserState R S),
      train_model fit s = (s', true) →
      (s'.metadata.baseWeight, s'.metadata.personalWeight)
        = computeWeights s.metadata.transactionCount
            (s.metadata.baseWeight, s.metadata.personalWeight)) ∧
    (∀ (n : ℕ) (prior : ℚ × ℚ), 100 < n → computeWeights n prior = (0.3, 0.7)) ∧
    (∀ (n : ℕ) (prior : ℚ × ℚ), 51 ≤ n → n ≤ 100 → computeWeights n prior = (0.5, 0.5)) ∧
    (∀ (n : ℕ) (prior : ℚ × ℚ), 21 ≤ n → n ≤ 50 → computeWeights n prior = (0.7, 0.3)) ∧
    (∀ (n : ℕ) (prior : ℚ × ℚ), n ≤ 20 → computeWeights n prior = prior) ∧
    (∀ m n : ℕ, m ≤ n →
      (computeWeights m (defaultMetadata.baseWeight, defaultMetadata.personalWeight)).2
        ≤ (computeWeights n (defaultMetadata.baseWeight, defaultMetadata.personalWeight)).2) ∧
    computeWeights 101 (1, 0) = (0.3, 0.7) ∧
    computeWeights 75 (1, 0) = (0.5, 0.5) ∧
    computeWeights 30 (1, 0) = (0.7, 0.3) ∧
    computeWeights 5 (1, 0) = (1, 0) := by
  refine ⟨?_, ?_, ?_, ?_, ?_, ?_, ?_, ?_, ?_, ?_⟩
  · intro R S fit s s' h
    unfold train_model at h
    split at h
    · simp at h
    · split at h
      · simp at h
      · have hs := congrArg Prod.fst h
        simp only at hs
        rw [← hs]
  · intro n prior h
    unfold computeWeights
    split_ifs <;> first | rfl | omega
  · intro n prior h1 h2
    unfold computeWeights
    split_ifs <;> first | rfl | omega
  · intro n prior h1 h2
    unfold computeWeights
    split_ifs <;> first | rfl | omega
  · intro n prior h
    unfold computeWeights
    split_ifs <;> first | rfl | omega
  · intro m n hmn
    unfold computeWeights defaultMetadata
    split_ifs <;> first | omega | norm_num
  · unfold computeWeights
    norm_num
  · unfold computeWeights
    norm_num
  · unfold computeWeights
    norm_num
  · unfold computeWeights
    norm_num

/-- C7 witness: the train-link conjunct applied to a concrete successful
training run (25 stored transactions, so the 21-50 row fires), plus the
four table entries. -/
theorem weights_recomputed_by_thresholds_witness :
    ((train_model constFit sampleTrainState).1.metadata.baseWeight,
      (train_model constFit sampleTrainState).1.metadata.personalWeight)
      = computeWeights 25 (1, 0) ∧
    computeWeights 101 (1, 0) = (0.3, 0.7) ∧
    computeWeights 75 (1, 0) = (0.5, 0.5) ∧
    computeWeights 30 (1, 0) = (0.7, 0.3) ∧
    computeWeights 5 (1, 0) = (1, 0) :=
  ⟨weights_recomputed_by_thresholds.1 ℕ ℕ constFit sampleTrainState _
      train_model_sample_succeeds,
   weights_recomputed_by_thresholds.2.1 101 (1, 0) (by norm_num),
   weights_recomputed_by_thresholds.2.2.1 75 (1, 0) (by norm_num) (by norm_num),
   weights_recomputed_by_thresholds.2.2.2.1 30 (1, 0) (by norm_num) (by norm_num),
   weights_recomputed_by_thresholds.2.2.2.2.1 5 (1, 0) (by norm_num)⟩

/-- C8 counterexample: with the user regressor unreadable and expenses 0,
the fallback path returns 0 (bounds off the raw expenses 0) while
`predictBase` substitutes expenses to 5000 and returns 6000 — so the two
differ on this input. -/
theorem fallback_differs_from_base_on_zero_expenses :
    predict brokenUserWorld 50000 0 11 10000 = some 0 ∧
    (ExpensePredictor.predict brokenUserWorld.baseRaw 50000 0 11 10000).toOption
      = some 6000 ∧
    predict brokenUserWorld 50000 0 11 10000
      ≠ (ExpensePredictor.predict brokenUserWorld.baseRaw 50000 0 11 10000).toOption := by
  refine ⟨predict_broken_sub0_eval, ?_, ?_⟩
  · rw [base_predict_broken_sub0_eval]
    rfl
  · rw [predict_broken_sub0_eval, base_predict_broken_sub0_eval]
    norm_num [Except.toOption]

/-- C8 amended: when the user regressor artifact is corrupted or
unreadable and the base artifacts exist and load, `predict` returns the
very float `predictBase` returns for identical inputs, provided the
observation passes the base validation unchanged (income > 0,
expenses > 0, month in [1,12]); with expenses ≤ 0 the two differ, because
the fallback skips the substitution `predictBase` applies. -/
theorem fallback_matches_base_predictor (w : World) (income expenses : ℚ) (month : ℤ)
    (savings : ℚ) (hu : w.userLoadOk = false) (hb : w.baseExists = true)
    (hl : w.baseLoadOk = true) (hi : 0 < income) (he : 0 < expenses)
    (h1 : 1 ≤ month) (h2 : month ≤ 12) :
    predict w income expenses month savings
      = (ExpensePredictor.predict w.baseRaw income expenses month savings).toOption := by
  have hm : ¬ (month < 1 ∨ 12 < month) := by omega
  simp [predict, fallback, ExpensePredictor.predict, hu, hb, hl,
    not_le.mpr hi, not_le.mpr he, hm, Except.toOption, clampF_eq_clampB]

/-- C8 witness: the amended theorem at a concrete world and observation. -/
theorem fallback_matches_base_predictor_witness :
    predict brokenUserWorld 40000 2000 5 0
      = (ExpensePredictor.predict brokenUserWorld.baseRaw 40000 2000 5 0).toOption :=
  fallback_matches_base_predictor brokenUserWorld 40000 2000 5 0 rfl rfl rfl
    (by norm_num) (by norm_num) (by norm_num) (by norm_num)

/-- C9: the scaler is written once at bootstrap and never after —
training updates only the regressor and metadata (the stored scaler and
log are untouched), and under any sequence of add-transactions and
training operations the persisted scaler stays the one copied from the
base model at initialization. -/
theorem scaler_fixed_after_bootstrap :
    (∀ (R S : Type) (fit : S → List TrainPair → R → R) (s : UserState R S),
      (train_model fit s).1.scaler = s.scaler ∧ (train_model fit s).1.log = s.log) ∧
    (∀ (R S : Type) (baseReg : R) (baseScaler : S) (ops : List (UserOp R S)),
      (ops.foldl applyOp (initialize_from_base_model baseReg baseScaler)).scaler
        = baseScaler) :=
  ⟨fun _ _ fit s => ⟨train_model_scaler fit s, train_model_log fit s⟩,
   fun _ _ _ _ ops => foldl_applyOp_scaler ops _⟩

end ClaimsC
